import Mathlib

/-!
Verification development for `pkg/master/master.go` (cluster master bootstrap):
a shallow embedding of the node-registry builder (`makeMinionRegistry`),
master construction (`New` / `Master.init`), and the versioned API exporters
(`API_v1beta1`, `API_v1beta2`), with theorems about decoration order, fallback
policy, the fixed resource-kind set, and copy semantics of the exported maps.

External collaborators (etcd-backed registries, cloud provider, health probes)
are modelled by an explicit environment `Env` recording how their fallible
operations behave; the code under `pkg/master` is embedded directly.
-/

namespace KubeMaster

/-- `api.NodeResources`: the default node resource capacity. Its internal
structure is irrelevant to this core; it is carried around as an opaque tagged
value. -/
structure NodeResources where
  capacity : Nat
deriving DecidableEq, Repr

/-- `tools.EtcdHelper`: handle to the storage backend, opaque here. -/
structure EtcdHelper where
  hid : Nat
deriving DecidableEq, Repr

/-- `cloudprovider.Interface`: handle to the cloud integration, opaque here. -/
structure Cloud where
  cid : Nat
deriving DecidableEq, Repr

/-- `api.Minion`: a node entry, with its identifier (`TypeMeta.ID`) and the
node resources it was created with. -/
structure Minion where
  id : String
  nodeResources : NodeResources
deriving DecidableEq, Repr

/-- `master.Config`: the immutable configuration bundle read by `New`. -/
structure Config where
  client : Nat
  cloud : Option Cloud
  etcdHelper : EtcdHelper
  healthCheckMinions : Bool
  minions : List String
  /-- `time.Duration` is an `int64` count of nanoseconds. -/
  minionCacheTTL : Int
  eventTTL : Int
  minionRegexp : String
  podInfoGetter : Nat
  nodeResources : NodeResources

/-- `minion.Registry` values as assembled by `makeMinionRegistry`: a base
source (etcd-backed static registry or cloud-discovered registry), optionally
wrapped by the health-filtering decorator (`minion.NewHealthyRegistry`) and the
caching decorator (`minion.NewCachingRegistry`). -/
inductive MinionRegistry where
  | static (helper : EtcdHelper) (members : List Minion)
  | cloudDiscovered (provider : Cloud) (pattern : String) (resources : NodeResources)
  | healthy (inner : MinionRegistry)
  | caching (inner : MinionRegistry) (ttl : Int)
deriving DecidableEq, Repr

/-- Behaviour of the external collaborators' fallible operations during one
run of master construction. These operations live outside `pkg/master`
(cloud provider, etcd storage, caching layer); `master.go` only consumes
their results. -/
structure Env where
  /-- whether `minion.NewCloudRegistry` returns an error. -/
  cloudRegistryFails : Bool
  /-- whether `minion.NewCachingRegistry` returns an error. -/
  cachingRegistryFails : Bool
  /-- whether `CreateMinion` against the etcd-backed registry succeeds for a
  given node identifier. -/
  createMinionOk : String → Bool
  /-- which minions a cloud-discovered registry with a given pattern lists. -/
  cloudList : String → List Minion
  /-- result of Go's `uint64(d.Seconds())` for a duration `d` (nanoseconds).
  `Duration.Seconds` returns a `float64` and the float-to-uint64 conversion is
  implementation-dependent out of range, so the value is environment-supplied. -/
  durationSecondsToUint64 : Int → Nat

/-- Log line emitted when cloud minion-registry construction fails
(`glog.Errorf` in `makeMinionRegistry`). -/
def cloudFailLog : String :=
  "Failed to initalize cloud minion registry reverting to static registry"

/-- Log line emitted when caching-layer construction fails
(`glog.Errorf` in `makeMinionRegistry`). -/
def cacheFailLog : String :=
  "Failed to initialize caching layer, ignoring cache."

/-- The node entries actually stored by the static path of
`makeMinionRegistry`: one `CreateMinion` call per configured identifier, in
order, each carrying `c.NodeResources`; entries whose creation fails at the
backend are absent (the code discards the error). -/
def staticMembers (env : Env) (c : Config) : List Minion :=
  (c.minions.filter env.createMinionOk).map (fun i => ⟨i, c.nodeResources⟩)

/-- The per-node creation errors raised during the static path (identifiers
whose `CreateMinion` call failed). `makeMinionRegistry` ignores the error
return of every `CreateMinion` call. -/
def staticCreateErrors (env : Env) (c : Config) : List String :=
  c.minions.filter (fun i => !(env.createMinionOk i))

/-- First phase of `makeMinionRegistry`: if a cloud handle is present and the
minion regexp is non-empty, attempt `minion.NewCloudRegistry`; on error, log
and leave the registry nil. Returns the (possibly nil) registry and the log
output. -/
def cloudMinionAttempt (env : Env) (c : Config) : Option MinionRegistry × List String :=
  match c.cloud with
  | some cl =>
    if c.minionRegexp.length > 0 then
      if env.cloudRegistryFails then (none, [cloudFailLog])
      else (some (MinionRegistry.cloudDiscovered cl c.minionRegexp c.nodeResources), [])
    else (none, [])
  | none => (none, [])

/-- Base registry after the first two phases of `makeMinionRegistry`: the
cloud registry when its construction was attempted and succeeded, otherwise
the etcd-backed static registry populated from `c.Minions`. -/
def baseMinionRegistry (env : Env) (c : Config) : MinionRegistry :=
  match (cloudMinionAttempt env c).1 with
  | some r => r
  | none => MinionRegistry.static c.etcdHelper (staticMembers env c)

/-- `makeMinionRegistry`: build the node registry chain and return it together
with the log lines emitted. Mirrors the Go control flow: cloud attempt, static
fallback, optional health-filter wrap, optional caching wrap (dropped when
`NewCachingRegistry` fails). -/
def makeMinionRegistry (env : Env) (c : Config) : MinionRegistry × List String :=
  let base := baseMinionRegistry env c
  let wrapped := if c.healthCheckMinions then MinionRegistry.healthy base else base
  if c.minionCacheTTL > 0 then
    if env.cachingRegistryFails then
      (wrapped, (cloudMinionAttempt env c).2 ++ [cacheFailLog])
    else
      (MinionRegistry.caching wrapped c.minionCacheTTL, (cloudMinionAttempt env c).2)
  else
    (wrapped, (cloudMinionAttempt env c).2)

/-- Membership of a node registry: the nodes it stores. The health and caching
decorators delegate storage to the registry they wrap. -/
def membership (env : Env) : MinionRegistry → List Minion
  | .static _ ms => ms
  | .cloudDiscovered _ pat _ => env.cloudList pat
  | .healthy r => membership env r
  | .caching r _ => membership env r

/-- Whether a caching layer occurs anywhere in the chain. -/
def hasCaching : MinionRegistry → Bool
  | .caching _ _ => true
  | .healthy r => hasCaching r
  | .static _ _ => false
  | .cloudDiscovered _ _ _ => false

/-- Whether the outermost layer of the chain is the caching decorator. -/
def isCachingTop : MinionRegistry → Bool
  | .caching _ _ => true
  | _ => false

/-- Whether a health-filtering layer occurs anywhere in the chain. -/
def hasHealthy : MinionRegistry → Bool
  | .healthy _ => true
  | .caching r _ => hasHealthy r
  | .static _ _ => false
  | .cloudDiscovered _ _ _ => false

/-- No health-filtering layer wraps a caching layer: health filtering, when
present together with caching, sits inside the cache. -/
def healthyInsideCachingOnly : MinionRegistry → Bool
  | .static _ _ => true
  | .cloudDiscovered _ _ _ => true
  | .healthy r => !hasCaching r && healthyInsideCachingOnly r
  | .caching r _ => healthyInsideCachingOnly r

/-- `runtime.Codec`: each API version contributes one codec. -/
inductive Codec where
  | v1beta1
  | v1beta2
deriving DecidableEq, Repr

/-- `runtime.SelfLinker`: the self-link builder; both exporters use
`latest.SelfLinker`. -/
inductive SelfLinker where
  | latest
deriving DecidableEq, Repr

/-- `etcd.NewRegistry(helper, manifestFactory)`: a plain etcd-backed resource
registry. The manifest factory, when supplied, is the single
`pod.BasicManifestFactory` built over the service registry, so a flag records
its presence. -/
structure EtcdRegistry where
  helper : EtcdHelper
  withManifestFactory : Bool
deriving DecidableEq, Repr

/-- `event.NewEtcdRegistry(helper, ttl)`: the event registry with its uint64
time-to-live in seconds. -/
structure EventRegistry where
  helper : EtcdHelper
  ttl : Nat
deriving DecidableEq, Repr

/-- Modelled from the spec: `NewPodCache` (pkg/master/pod_cache.go, not under
src/) builds the workload cache from the pod-info source and the pod
registry; it exposes `UpdateAllContainers`, a full-scan refresh of cached
per-workload state. -/
structure PodCache where
  podInfoGetter : Nat
  podRegistry : EtcdRegistry
deriving DecidableEq, Repr

/-- The background task spawned by `Master.init`:
`go util.Forever(func() { podCache.UpdateAllContainers() }, time.Second*30)`.
`period` is the tick interval in nanoseconds; `body` is the pod cache whose
`UpdateAllContainers` each pass invokes. -/
structure BackgroundTask where
  period : Int
  body : PodCache
deriving DecidableEq, Repr

/-- `apiserver.RESTStorage` adapters as instantiated by `Master.init`, each
carrying exactly the registries and auxiliary services the Go code threads
into it. -/
inductive RESTStorage where
  | pods (cloud : Option Cloud) (cache : PodCache) (getter : Nat)
      (reg : EtcdRegistry) (minionsClient : Nat)
  | replicationControllers (controllers : EtcdRegistry) (pods : EtcdRegistry)
  | services (reg : EtcdRegistry) (cloud : Option Cloud) (minions : MinionRegistry)
  | endpoints (reg : EtcdRegistry)
  | minions (reg : MinionRegistry)
  | events (reg : EventRegistry)
  | bindings (reg : EtcdRegistry)
deriving DecidableEq, Repr

/-- Contents of a `map[string]apiserver.RESTStorage` value: an association
list of unique resource-kind keys. -/
abbrev StorageMap := List (String × RESTStorage)

/-- The keys of a storage map. -/
def storageKeys (mp : StorageMap) : List String := mp.map Prod.fst

/-- A heap of Go map instances: maps are mutable reference values in Go, so
each `make(map[string]RESTStorage)` allocates a fresh cell. `nextRef` is the
next unused reference. -/
structure Heap where
  nextRef : Nat
  maps : Nat → Option StorageMap

/-- The empty heap. -/
def Heap.empty : Heap := ⟨0, fun _ => none⟩

/-- Allocate a fresh map instance holding the given entries (Go `make` plus
an entry-copying loop), returning its reference. -/
def allocMap (h : Heap) (m : StorageMap) : Nat × Heap :=
  (h.nextRef, ⟨h.nextRef + 1, fun x => if x = h.nextRef then some m else h.maps x⟩)

/-- Read the entries of the map instance behind a reference. -/
def readMap (h : Heap) (r : Nat) : StorageMap :=
  (h.maps r).getD []

/-- Overwrite the entries of the map instance behind a reference (covers any
in-place mutation of that one instance, such as replacing a key's value). -/
def writeMap (h : Heap) (r : Nat) (m : StorageMap) : Heap :=
  ⟨h.nextRef, fun x => if x = r then some m else h.maps x⟩

/-- Go `delete(m, k)` on the map instance behind a reference. -/
def deleteKey (h : Heap) (r : Nat) (k : String) : Heap :=
  writeMap h r ((readMap h r).filter (fun p => p.1 != k))

/-- `master.Master`: the assembled master state. `storage` is a map value in
Go, hence a heap reference here; `task` records the background refresh task
spawned by `init`. -/
structure Master where
  podRegistry : EtcdRegistry
  controllerRegistry : EtcdRegistry
  serviceRegistry : EtcdRegistry
  endpointRegistry : EtcdRegistry
  minionRegistry : MinionRegistry
  bindingRegistry : EtcdRegistry
  eventRegistry : EventRegistry
  storageRef : Nat
  client : Nat
  task : BackgroundTask

/-- Nanoseconds per second (`time.Second`). -/
def nsPerSecond : Int := 1000000000

/-- The `map[string]apiserver.RESTStorage` literal assigned by `Master.init`,
entry for entry in source order. -/
def initStorageMap (env : Env) (c : Config) : StorageMap :=
  let minionRegistry := (makeMinionRegistry env c).1
  let podRegistry : EtcdRegistry := ⟨c.etcdHelper, true⟩
  let podCache : PodCache := ⟨c.podInfoGetter, podRegistry⟩
  [("pods", .pods c.cloud podCache c.podInfoGetter podRegistry c.client),
   ("replicationControllers",
     .replicationControllers ⟨c.etcdHelper, false⟩ podRegistry),
   ("services", .services ⟨c.etcdHelper, false⟩ c.cloud minionRegistry),
   ("endpoints", .endpoints ⟨c.etcdHelper, false⟩),
   ("minions", .minions minionRegistry),
   ("events", .events ⟨c.etcdHelper, env.durationSecondsToUint64 c.eventTTL⟩),
   ("bindings", .bindings ⟨c.etcdHelper, true⟩)]

/-- `master.New` followed by `Master.init`: build every registry over the etcd
helper, build the node registry via `makeMinionRegistry`, start the background
pod-cache refresh task, and store the resource-handler map (allocated once on
the heap). -/
def new (env : Env) (c : Config) (h : Heap) : Master × Heap :=
  let minionRegistry := (makeMinionRegistry env c).1
  let serviceRegistry : EtcdRegistry := ⟨c.etcdHelper, false⟩
  let podRegistry : EtcdRegistry := ⟨c.etcdHelper, true⟩
  let podCache : PodCache := ⟨c.podInfoGetter, podRegistry⟩
  let alloc := allocMap h (initStorageMap env c)
  ({ podRegistry := podRegistry
     controllerRegistry := ⟨c.etcdHelper, false⟩
     serviceRegistry := serviceRegistry
     endpointRegistry := ⟨c.etcdHelper, false⟩
     minionRegistry := minionRegistry
     bindingRegistry := ⟨c.etcdHelper, true⟩
     eventRegistry := ⟨c.etcdHelper, env.durationSecondsToUint64 c.eventTTL⟩
     storageRef := alloc.1
     client := c.client
     task := ⟨30 * nsPerSecond, podCache⟩ }, alloc.2)

/-- Result quadruple of a versioned API exporter: the reference to the freshly
allocated storage-map copy, the version codec, the root path, and the
self-link builder. -/
structure APIResult where
  storage : Nat
  codec : Codec
  rootPath : String
  selfLinker : SelfLinker
deriving DecidableEq, Repr

/-- `Master.API_v1beta1`: allocate a fresh map, copy every entry of the
internal storage map into it, and return it with the v1beta1 codec, the root
path constant, and the shared self-linker. -/
def Master.API_v1beta1 (m : Master) (h : Heap) : APIResult × Heap :=
  let alloc := allocMap h (readMap h m.storageRef)
  (⟨alloc.1, Codec.v1beta1, "/api/v1beta1", SelfLinker.latest⟩, alloc.2)

/-- `Master.API_v1beta2`: identical copy loop, v1beta2 codec, and the same
root path constant as `API_v1beta1` (verbatim from the source). -/
def Master.API_v1beta2 (m : Master) (h : Heap) : APIResult × Heap :=
  let alloc := allocMap h (readMap h m.storageRef)
  (⟨alloc.1, Codec.v1beta2, "/api/v1beta1", SelfLinker.latest⟩, alloc.2)

/-- State of the background refresh loop: how many full-scan passes have
completed. -/
structure ForeverState where
  completedPasses : Nat
deriving DecidableEq, Repr

/-- Modelled from the spec: one iteration of `util.Forever` (pkg/util, not
under src/) runs the wrapped function — recovering from any failure of the
pass — then sleeps for the period and continues; the outcome of the pass
(`passFailed n` for pass `n`) does not influence the transition. -/
def foreverStep (passFailed : Nat → Bool) (s : ForeverState) : ForeverState :=
  { completedPasses := s.completedPasses + 1 }

/-- Modelled from the spec: the state of the `util.Forever` loop after `n`
iterations, for a given pattern of per-pass failures. -/
def foreverAfter (passFailed : Nat → Bool) : Nat → ForeverState
  | 0 => ⟨0⟩
  | n + 1 => foreverStep passFailed (foreverAfter passFailed n)

/-- The fixed list of resource-kind keys assembled by `Master.init`, in
source order. -/
def resourceKinds : List String :=
  ["pods", "replicationControllers", "services", "endpoints", "minions",
   "events", "bindings"]

/-- Fixture: environment in which every external operation succeeds. -/
def envOK : Env :=
  { cloudRegistryFails := false
    cachingRegistryFails := false
    createMinionOk := fun _ => true
    cloudList := fun _ => []
    durationSecondsToUint64 := fun _ => 0 }

/-- Fixture: environment in which every `CreateMinion` call fails. -/
def envCreateFail : Env := { envOK with createMinionOk := fun _ => false }

/-- Fixture: environment in which `minion.NewCloudRegistry` fails. -/
def envCloudFail : Env := { envOK with cloudRegistryFails := true }

/-- Fixture: environment in which `minion.NewCachingRegistry` fails. -/
def envCacheFail : Env := { envOK with cachingRegistryFails := true }

/-- Fixture: configuration with no cloud handle, no discovery pattern, two
explicit nodes, no health check, no cache. -/
def cfgPlain : Config :=
  { client := 1
    cloud := none
    etcdHelper := ⟨0⟩
    healthCheckMinions := false
    minions := ["n1", "n2"]
    minionCacheTTL := 0
    eventTTL := 0
    minionRegexp := ""
    podInfoGetter := 2
    nodeResources := ⟨4⟩ }

/-- Fixture: `cfgPlain` with health checking and a 30-second node cache. -/
def cfgCached : Config :=
  { cfgPlain with healthCheckMinions := true, minionCacheTTL := 30 * nsPerSecond }

/-- Fixture: `cfgPlain` with a cloud handle and a discovery pattern. -/
def cfgCloud : Config :=
  { cfgPlain with cloud := some ⟨7⟩, minionRegexp := "node-.*" }

theorem readMap_allocMap_same (h : Heap) (m : StorageMap) :
    readMap (allocMap h m).2 (allocMap h m).1 = m := by
  simp [readMap, allocMap]

theorem readMap_allocMap_other (h : Heap) (m : StorageMap) (r : Nat)
    (hr : r ≠ h.nextRef) : readMap (allocMap h m).2 r = readMap h r := by
  simp [readMap, allocMap, hr]

theorem readMap_writeMap_other (h : Heap) (m : StorageMap) (r r' : Nat)
    (hr : r' ≠ r) : readMap (writeMap h r m) r' = readMap h r' := by
  simp [readMap, writeMap, hr]

theorem readMap_deleteKey_other (h : Heap) (r : Nat) (k : String) (r' : Nat)
    (hr : r' ≠ r) : readMap (deleteKey h r k) r' = readMap h r' :=
  readMap_writeMap_other h _ r r' hr

theorem allocMap_ref (h : Heap) (m : StorageMap) : (allocMap h m).1 = h.nextRef := rfl

theorem allocMap_nextRef (h : Heap) (m : StorageMap) :
    (allocMap h m).2.nextRef = h.nextRef + 1 := rfl

theorem writeMap_nextRef (h : Heap) (r : Nat) (m : StorageMap) :
    (writeMap h r m).nextRef = h.nextRef := rfl

theorem baseMinionRegistry_shape (env : Env) (c : Config) :
    baseMinionRegistry env c = MinionRegistry.static c.etcdHelper (staticMembers env c)
    ∨ ∃ cl, c.cloud = some cl ∧
        baseMinionRegistry env c
          = MinionRegistry.cloudDiscovered cl c.minionRegexp c.nodeResources := by
  unfold baseMinionRegistry cloudMinionAttempt
  cases hc : c.cloud with
  | none => simp
  | some cl =>
    by_cases h1 : c.minionRegexp.length > 0
    · by_cases h2 : env.cloudRegistryFails
      · simp [h1, h2]
      · exact Or.inr ⟨cl, rfl, by simp [h1, h2]⟩
    · simp [h1]

theorem baseMinionRegistry_flat (env : Env) (c : Config) :
    hasCaching (baseMinionRegistry env c) = false
    ∧ hasHealthy (baseMinionRegistry env c) = false
    ∧ healthyInsideCachingOnly (baseMinionRegistry env c) = true := by
  rcases baseMinionRegistry_shape env c with h | ⟨cl, _, h⟩ <;>
    rw [h] <;> exact ⟨rfl, rfl, rfl⟩

theorem makeMinionRegistry_logs (env : Env) (c : Config) :
    (makeMinionRegistry env c).2
      = (cloudMinionAttempt env c).2
        ++ (if c.minionCacheTTL > 0 ∧ env.cachingRegistryFails = true then
              [cacheFailLog] else []) := by
  unfold makeMinionRegistry
  by_cases h1 : c.minionCacheTTL > 0
  · by_cases h2 : env.cachingRegistryFails <;> simp [h1, h2]
  · simp [h1]

theorem new_storage_read (env : Env) (c : Config) (h : Heap) :
    readMap (new env c h).2 (new env c h).1.storageRef = initStorageMap env c :=
  readMap_allocMap_same h (initStorageMap env c)

theorem new_storageRef (env : Env) (c : Config) (h : Heap) :
    (new env c h).1.storageRef = h.nextRef := rfl

theorem new_nextRef (env : Env) (c : Config) (h : Heap) :
    (new env c h).2.nextRef = h.nextRef + 1 := rfl

theorem initStorageMap_keys (env : Env) (c : Config) :
    storageKeys (initStorageMap env c) = resourceKinds := rfl

theorem makeMinionRegistry_reg (env : Env) (c : Config) :
    (makeMinionRegistry env c).1
      = (if c.minionCacheTTL > 0 ∧ env.cachingRegistryFails = false then
           MinionRegistry.caching
             (if c.healthCheckMinions then MinionRegistry.healthy (baseMinionRegistry env c)
              else baseMinionRegistry env c) c.minionCacheTTL
         else
           (if c.healthCheckMinions then MinionRegistry.healthy (baseMinionRegistry env c)
            else baseMinionRegistry env c)) := by
  unfold makeMinionRegistry
  by_cases h1 : c.minionCacheTTL > 0
  · by_cases h2 : env.cachingRegistryFails <;> simp [h1, h2]
  · simp [h1]

/-- C2: for every environment and configuration, the node registry built by
`makeMinionRegistry` satisfies the ordering invariant: whenever a caching
layer is present it is the outermost layer, and the health-filtering layer,
when present, never wraps a caching layer — it is always applied inside the
cache. -/
theorem nodeRegistry_decoration_order (env : Env) (c : Config) :
    ((!hasCaching (makeMinionRegistry env c).1
       || isCachingTop (makeMinionRegistry env c).1)
      && healthyInsideCachingOnly (makeMinionRegistry env c).1) = true := by
  obtain ⟨hc, hh, hi⟩ := baseMinionRegistry_flat env c
  rw [makeMinionRegistry_reg]
  by_cases h1 : c.minionCacheTTL > 0 ∧ env.cachingRegistryFails = false <;>
    by_cases h2 : c.healthCheckMinions <;>
      simp [h1, h2, hasCaching, isCachingTop, healthyInsideCachingOnly, hc, hi]

/-- C4: with a cloud handle and a non-empty discovery filter pattern, failure
of cloud-registry construction is non-fatal: the base falls back to the
static registry bound to the storage backend and populated from the explicit
node identifiers, the resulting chain is exactly what the cloud-free
configuration produces, and the failure is logged as the first log line. -/
theorem cloud_failure_falls_back (env : Env) (c : Config)
    (h1 : c.cloud.isSome = true) (h2 : 0 < c.minionRegexp.length)
    (h3 : env.cloudRegistryFails = true) :
    baseMinionRegistry env c
      = MinionRegistry.static c.etcdHelper (staticMembers env c)
    ∧ (makeMinionRegistry env c).1
        = (makeMinionRegistry env { c with cloud := none }).1
    ∧ (makeMinionRegistry env c).2
        = cloudFailLog :: (makeMinionRegistry env { c with cloud := none }).2 := by
  rcases Option.isSome_iff_exists.mp h1 with ⟨cl, hcl⟩
  have ha : cloudMinionAttempt env c = (none, [cloudFailLog]) := by
    simp [cloudMinionAttempt, hcl, h2, h3]
  have ha' : cloudMinionAttempt env { c with cloud := none } = (none, []) := rfl
  have hb : baseMinionRegistry env c
      = MinionRegistry.static c.etcdHelper (staticMembers env c) := by
    unfold baseMinionRegistry
    rw [ha]
  have hb' : baseMinionRegistry env { c with cloud := none }
      = MinionRegistry.static c.etcdHelper (staticMembers env c) := rfl
  refine ⟨hb, ?_, ?_⟩
  · rw [makeMinionRegistry_reg, makeMinionRegistry_reg, hb, hb']
  · rw [makeMinionRegistry_logs, makeMinionRegistry_logs, ha, ha']
    simp

/-- C5: with a node-cache interval greater than zero, a failed cache
construction leaves the chain exactly as the cache-free configuration would
have produced it, while a successful one wraps that chain in a caching layer
whose TTL is the configured interval. -/
theorem cache_failure_keeps_chain (env : Env) (c : Config)
    (hp : 0 < c.minionCacheTTL) :
    (makeMinionRegistry env c).1
      = (if env.cachingRegistryFails then
           (makeMinionRegistry env { c with minionCacheTTL := 0 }).1
         else
           MinionRegistry.caching
             ((makeMinionRegistry env { c with minionCacheTTL := 0 }).1)
             c.minionCacheTTL) := by
  have h0 : (makeMinionRegistry env { c with minionCacheTTL := 0 }).1
      = (if c.healthCheckMinions then
           MinionRegistry.healthy (baseMinionRegistry env c)
         else baseMinionRegistry env c) := by
    rw [makeMinionRegistry_reg]
    rfl
  rw [makeMinionRegistry_reg, h0]
  by_cases h2 : env.cachingRegistryFails <;> simp [h2, hp]

/-- C6: with no cloud handle and no discovery pattern, and the storage
backend accepting every creation, the resulting node registry's membership is
exactly the explicit node-identifier list, each entry carrying the configured
default node resources. -/
theorem static_membership_exact (env : Env) (c : Config)
    (h1 : c.cloud = none) (h2 : c.minionRegexp = "")
    (h3 : c.minions.all env.createMinionOk = true) :
    membership env (makeMinionRegistry env c).1
      = c.minions.map (fun i => ⟨i, c.nodeResources⟩) := by
  have hb : baseMinionRegistry env c
      = MinionRegistry.static c.etcdHelper (staticMembers env c) := by
    unfold baseMinionRegistry cloudMinionAttempt
    rw [h1]
  have hm : staticMembers env c
      = c.minions.map (fun i => ⟨i, c.nodeResources⟩) := by
    unfold staticMembers
    rw [List.filter_eq_self.mpr (by simpa [List.all_eq_true] using h3)]
  rw [makeMinionRegistry_reg, hb, hm]
  by_cases hc : c.minionCacheTTL > 0 ∧ env.cachingRegistryFails = false <;>
    by_cases hh : c.healthCheckMinions <;> simp [hc, hh, membership]

/-- C6 witness: environment where every creation succeeds, configuration
`cfgPlain` (no cloud, empty pattern, nodes n1 and n2, capacity 4). -/
theorem static_membership_exact_witness :
    membership envOK (makeMinionRegistry envOK cfgPlain).1
      = [⟨"n1", ⟨4⟩⟩, ⟨"n2", ⟨4⟩⟩] := by
  have h := static_membership_exact envOK cfgPlain rfl rfl (by decide)
  simpa using h

/-- C4 witness: environment where cloud-registry construction fails,
configuration `cfgCloud` (cloud handle present, non-empty pattern). -/
theorem cloud_failure_falls_back_witness :
    baseMinionRegistry envCloudFail cfgCloud
      = MinionRegistry.static cfgCloud.etcdHelper (staticMembers envCloudFail cfgCloud)
    ∧ (makeMinionRegistry envCloudFail cfgCloud).1
        = (makeMinionRegistry envCloudFail { cfgCloud with cloud := none }).1
    ∧ (makeMinionRegistry envCloudFail cfgCloud).2
        = cloudFailLog :: (makeMinionRegistry envCloudFail { cfgCloud with cloud := none }).2 :=
  cloud_failure_falls_back envCloudFail cfgCloud rfl (by decide) rfl

/-- C5 witness: `cfgCached` (30-second cache interval) under an environment
where caching construction fails and one where it succeeds. -/
theorem cache_failure_keeps_chain_witness :
    ((makeMinionRegistry envCacheFail cfgCached).1
      = (if envCacheFail.cachingRegistryFails then
           (makeMinionRegistry envCacheFail { cfgCached with minionCacheTTL := 0 }).1
         else
           MinionRegistry.caching
             ((makeMinionRegistry envCacheFail { cfgCached with minionCacheTTL := 0 }).1)
             cfgCached.minionCacheTTL))
    ∧ ((makeMinionRegistry envOK cfgCached).1
      = (if envOK.cachingRegistryFails then
           (makeMinionRegistry envOK { cfgCached with minionCacheTTL := 0 }).1
         else
           MinionRegistry.caching
             ((makeMinionRegistry envOK { cfgCached with minionCacheTTL := 0 }).1)
             cfgCached.minionCacheTTL)) :=
  ⟨cache_failure_keeps_chain envCacheFail cfgCached (by decide),
   cache_failure_keeps_chain envOK cfgCached (by decide)⟩

/-- C1 counterexample: in an environment where the backend rejects every
`CreateMinion` call, the static path raises creation errors for both
configured nodes, yet `makeMinionRegistry` returns a normal (empty) static
registry with no log output and no error value — the function has no error
channel at all — and master initialization completes with the full set of
resource kinds. The per-node creation errors are silently swallowed and
nothing aborts. -/
theorem createMinion_error_swallowed_cex :
    staticCreateErrors envCreateFail cfgPlain = ["n1", "n2"]
    ∧ makeMinionRegistry envCreateFail cfgPlain
        = (MinionRegistry.static ⟨0⟩ [], [])
    ∧ storageKeys (readMap (new envCreateFail cfgPlain Heap.empty).2
        (new envCreateFail cfgPlain Heap.empty).1.storageRef) = resourceKinds := by
  decide

/-- C1 (amended): per-node creation errors on the static path are silently
discarded, not surfaced: `makeMinionRegistry` returns no error value, its log
output consists at most of the two degradation messages (never a creation
error), nodes whose creation failed are simply absent from the registry, and
initialization completes normally with the full resource-kind map. -/
theorem createMinion_error_swallowed (env : Env) (c : Config) (hp : Heap)
    (h1 : c.cloud = none) :
    membership env (makeMinionRegistry env c).1 = staticMembers env c
    ∧ ((makeMinionRegistry env c).2.all
        (fun s => s == cloudFailLog || s == cacheFailLog)) = true
    ∧ storageKeys (readMap (new env c hp).2 (new env c hp).1.storageRef)
        = resourceKinds := by
  have hb : baseMinionRegistry env c
      = MinionRegistry.static c.etcdHelper (staticMembers env c) := by
    unfold baseMinionRegistry cloudMinionAttempt
    rw [h1]
  have ha : cloudMinionAttempt env c = (none, []) := by
    unfold cloudMinionAttempt
    rw [h1]
  refine ⟨?_, ?_, ?_⟩
  · rw [makeMinionRegistry_reg, hb]
    by_cases hc : c.minionCacheTTL > 0 ∧ env.cachingRegistryFails = false <;>
      by_cases hh : c.healthCheckMinions <;> simp [hc, hh, membership]
  · rw [makeMinionRegistry_logs, ha]
    by_cases hc : c.minionCacheTTL > 0 ∧ env.cachingRegistryFails = true <;>
      simp [hc]
  · rw [new_storage_read, initStorageMap_keys]

/-- C1 witness for the amended theorem: all-failing backend, `cfgPlain`,
empty heap. -/
theorem createMinion_error_swallowed_witness :
    membership envCreateFail (makeMinionRegistry envCreateFail cfgPlain).1
      = staticMembers envCreateFail cfgPlain
    ∧ storageKeys (readMap (new envCreateFail cfgPlain Heap.empty).2
        (new envCreateFail cfgPlain Heap.empty).1.storageRef) = resourceKinds := by
  have h := createMinion_error_swallowed envCreateFail cfgPlain Heap.empty rfl
  exact ⟨h.1, h.2.2⟩

/-- C3: immediately after initialization the resource-handler map contains
exactly the seven fixed resource kinds — pods, replicationControllers,
services, endpoints, minions, events, bindings — and no other keys, and the
versioned exporters (the only further operations of this core) leave the
internal map untouched. -/
theorem storage_kinds_exact (env : Env) (c : Config) (h : Heap) :
    storageKeys (readMap (new env c h).2 (new env c h).1.storageRef)
      = resourceKinds
    ∧ readMap ((new env c h).1.API_v1beta1 (new env c h).2).2
        (new env c h).1.storageRef
      = readMap (new env c h).2 (new env c h).1.storageRef
    ∧ readMap ((new env c h).1.API_v1beta2 (new env c h).2).2
        (new env c h).1.storageRef
      = readMap (new env c h).2 (new env c h).1.storageRef := by
  refine ⟨by rw [new_storage_read, initStorageMap_keys], ?_, ?_⟩ <;>
    exact readMap_allocMap_other (new env c h).2 _ _
      (by rw [new_storageRef, new_nextRef]; omega)

/-- C7: each exporter call returns a fresh map instance, distinct from the
internal map and from every other call's result; both copies hold the
internal map's contents; deleting a key from, or arbitrarily overwriting,
one returned copy changes neither the internal map, nor the other copy, nor
the contents returned by a subsequent call. -/
theorem api_copies_independent (m : Master) (h : Heap) (k : String)
    (mp : StorageMap) (hv : m.storageRef < h.nextRef) :
    (m.API_v1beta1 h).1.storage ≠ m.storageRef
    ∧ (m.API_v1beta1 (m.API_v1beta1 h).2).1.storage ≠ m.storageRef
    ∧ (m.API_v1beta1 h).1.storage ≠ (m.API_v1beta1 (m.API_v1beta1 h).2).1.storage
    ∧ readMap (m.API_v1beta1 (m.API_v1beta1 h).2).2 (m.API_v1beta1 h).1.storage
        = readMap h m.storageRef
    ∧ readMap (m.API_v1beta1 (m.API_v1beta1 h).2).2
        (m.API_v1beta1 (m.API_v1beta1 h).2).1.storage
        = readMap h m.storageRef
    ∧ readMap (deleteKey (m.API_v1beta1 (m.API_v1beta1 h).2).2
          (m.API_v1beta1 h).1.storage k) m.storageRef
        = readMap h m.storageRef
    ∧ readMap (deleteKey (m.API_v1beta1 (m.API_v1beta1 h).2).2
          (m.API_v1beta1 h).1.storage k)
        (m.API_v1beta1 (m.API_v1beta1 h).2).1.storage
        = readMap h m.storageRef
    ∧ readMap (writeMap (m.API_v1beta1 (m.API_v1beta1 h).2).2
          (m.API_v1beta1 h).1.storage mp) m.storageRef
        = readMap h m.storageRef
    ∧ readMap (writeMap (m.API_v1beta1 (m.API_v1beta1 h).2).2
          (m.API_v1beta1 h).1.storage mp)
        (m.API_v1beta1 (m.API_v1beta1 h).2).1.storage
        = readMap h m.storageRef
    ∧ readMap (m.API_v1beta1 (writeMap (m.API_v1beta1 (m.API_v1beta1 h).2).2
          (m.API_v1beta1 h).1.storage mp)).2
        (m.API_v1beta1 (writeMap (m.API_v1beta1 (m.API_v1beta1 h).2).2
          (m.API_v1beta1 h).1.storage mp)).1.storage
        = readMap h m.storageRef := by
  have d1 : m.storageRef ≠ h.nextRef := by omega
  have d1s : h.nextRef ≠ m.storageRef := by omega
  have d2 : m.storageRef ≠ h.nextRef + 1 := by omega
  have d2s : h.nextRef + 1 ≠ m.storageRef := by omega
  have d3 : m.storageRef ≠ h.nextRef + 2 := by omega
  have d3s : h.nextRef + 2 ≠ m.storageRef := by omega
  have d4 : h.nextRef ≠ h.nextRef + 1 := by omega
  have d4s : h.nextRef + 1 ≠ h.nextRef := by omega
  have d5 : h.nextRef ≠ h.nextRef + 2 := by omega
  have d5s : h.nextRef + 2 ≠ h.nextRef := by omega
  have d6 : h.nextRef + 1 ≠ h.nextRef + 2 := by omega
  have d6s : h.nextRef + 2 ≠ h.nextRef + 1 := by omega
  refine ⟨?_, ?_, ?_, ?_, ?_, ?_, ?_, ?_, ?_, ?_⟩ <;>
    simp [Master.API_v1beta1, readMap, allocMap, writeMap, deleteKey,
      d1, d1s, d2, d2s, d3, d3s, d4, d4s, d5, d5s, d6, d6s]

/-- C7 witness: a master freshly built over the empty heap; the first copy is
a new instance and deleting the key "pods" from it leaves the internal map
unchanged. -/
theorem api_copies_independent_witness :
    ((new envOK cfgPlain Heap.empty).1.API_v1beta1
        (new envOK cfgPlain Heap.empty).2).1.storage
      ≠ (new envOK cfgPlain Heap.empty).1.storageRef
    ∧ readMap
        (deleteKey
          ((new envOK cfgPlain Heap.empty).1.API_v1beta1
            ((new envOK cfgPlain Heap.empty).1.API_v1beta1
              (new envOK cfgPlain Heap.empty).2).2).2
          ((new envOK cfgPlain Heap.empty).1.API_v1beta1
            (new envOK cfgPlain Heap.empty).2).1.storage "pods")
        (new envOK cfgPlain Heap.empty).1.storageRef
      = readMap (new envOK cfgPlain Heap.empty).2
          (new envOK cfgPlain Heap.empty).1.storageRef := by
  have hw := api_copies_independent (new envOK cfgPlain Heap.empty).1
    (new envOK cfgPlain Heap.empty).2 "pods" [] (by decide)
  exact ⟨hw.1, hw.2.2.2.2.2.1⟩

/-- C8: the two versioned exporters return storage maps with identical
contents — the same resource-kind key set mapping to the same handler
adapters, both copies of the internal map — they differ exactly in the codec
component, share the self-link builder, and both return the same root path
constant. -/
theorem api_versions_agree (m : Master) (h : Heap) :
    readMap (m.API_v1beta2 (m.API_v1beta1 h).2).2 (m.API_v1beta1 h).1.storage
      = readMap (m.API_v1beta2 (m.API_v1beta1 h).2).2
          (m.API_v1beta2 (m.API_v1beta1 h).2).1.storage
    ∧ storageKeys (readMap (m.API_v1beta2 (m.API_v1beta1 h).2).2
          (m.API_v1beta1 h).1.storage)
        = storageKeys (readMap (m.API_v1beta2 (m.API_v1beta1 h).2).2
          (m.API_v1beta2 (m.API_v1beta1 h).2).1.storage)
    ∧ (m.API_v1beta1 h).1.codec = Codec.v1beta1
    ∧ (m.API_v1beta2 (m.API_v1beta1 h).2).1.codec = Codec.v1beta2
    ∧ (m.API_v1beta1 h).1.codec ≠ (m.API_v1beta2 (m.API_v1beta1 h).2).1.codec
    ∧ (m.API_v1beta1 h).1.selfLinker
        = (m.API_v1beta2 (m.API_v1beta1 h).2).1.selfLinker
    ∧ (m.API_v1beta1 h).1.rootPath = "/api/v1beta1"
    ∧ (m.API_v1beta2 (m.API_v1beta1 h).2).1.rootPath
        = (m.API_v1beta1 h).1.rootPath := by
  have key : readMap (m.API_v1beta1 h).2 m.storageRef = readMap h m.storageRef := by
    by_cases hsr : m.storageRef = h.nextRef
    · rw [hsr]
      exact (readMap_allocMap_same h _).trans (congrArg (readMap h) hsr)
    · exact readMap_allocMap_other h _ _ hsr
  have t2 : readMap (m.API_v1beta2 (m.API_v1beta1 h).2).2
      (m.API_v1beta2 (m.API_v1beta1 h).2).1.storage
      = readMap h m.storageRef :=
    (readMap_allocMap_same (m.API_v1beta1 h).2 _).trans key
  have t1 : readMap (m.API_v1beta2 (m.API_v1beta1 h).2).2 (m.API_v1beta1 h).1.storage
      = readMap h m.storageRef := by
    have step : readMap (m.API_v1beta2 (m.API_v1beta1 h).2).2 (m.API_v1beta1 h).1.storage
        = readMap (m.API_v1beta1 h).2 (m.API_v1beta1 h).1.storage :=
      readMap_allocMap_other (m.API_v1beta1 h).2 _ _ (by
        have e1 : (m.API_v1beta1 h).1.storage = h.nextRef := rfl
        have e2 : (m.API_v1beta1 h).2.nextRef = h.nextRef + 1 := rfl
        omega)
    exact step.trans (readMap_allocMap_same h _)
  refine ⟨t1.trans t2.symm, by rw [t1, t2], rfl, rfl,
    (by decide : Codec.v1beta1 ≠ Codec.v1beta2), rfl, rfl, rfl⟩

/-- C9: master construction starts a background task that invokes the pod
cache's full-scan container refresh with a fixed 30-second period, for the
lifetime of the process: the refresh-loop model completes every pass — after
`n` steps exactly `n` passes have run — for every pattern of per-pass
failures, so no failing pass and no operation of this core terminates it. -/
theorem background_refresh_forever (env : Env) (c : Config) (h : Heap)
    (passFailed : Nat → Bool) (n : Nat) :
    (new env c h).1.task.period = 30 * nsPerSecond
    ∧ (new env c h).1.task.body = ⟨c.podInfoGetter, ⟨c.etcdHelper, true⟩⟩
    ∧ (foreverAfter passFailed n).completedPasses = n := by
  refine ⟨rfl, rfl, ?_⟩
  induction n with
  | zero => rfl
  | succ k ih => simp [foreverAfter, foreverStep, ih]

end KubeMaster
